import Mathlib

/-!
Verification development for the Budget-tracking backend.

We give a shallow embedding of the repository's core logic:
the proleptic-Gregorian date arithmetic used by the report period
resolver (`src/apps/budget/reports.py`), the JWT-based token service
(`src/core/security.py`), the account operations
(`src/apps/auth/views.py`) and the budget/report aggregation
(`src/apps/budget/categories.py`, `src/apps/budget/reports.py`),
and prove or refute the specification's claims about them.
-/

deriving instance DecidableEq for Except

namespace BudgetTracker

/-- Python `str.lower()` (restricted to ASCII case mapping, which is all
this code base's email normalisation relies on). -/
def strLower (s : String) : String :=
  ⟨s.data.map Char.toLower⟩

/-! ### Dates (Python `datetime.date` semantics) -/

/-- A calendar date, fields as in Python `datetime.date`. -/
structure PDate where
  year : Nat
  month : Nat
  day : Nat
  deriving DecidableEq, Repr

/-- Gregorian leap-year test. -/
def isLeap (y : Nat) : Bool :=
  y % 4 == 0 && (y % 100 != 0 || y % 400 == 0)

/-- Number of days in month `m` of year `y`. -/
def daysInMonth (y m : Nat) : Nat :=
  if m = 2 then (if isLeap y then 29 else 28)
  else if m = 4 ∨ m = 6 ∨ m = 9 ∨ m = 11 then 30
  else 31

/-- Days in year `y` strictly before month `m` (0 for January). -/
def daysBeforeMonth (y : Nat) : Nat → Nat
  | 0 => 0
  | 1 => 0
  | m + 1 => daysBeforeMonth y m + daysInMonth y m

/-- Days strictly before January 1 of year `y` (proleptic Gregorian,
counting from year 1, as Python's `date.toordinal`). -/
def daysBeforeYear (y : Nat) : Nat :=
  365 * (y - 1) + (y - 1) / 4 + (y - 1) / 400 - (y - 1) / 100

/-- Python `date.toordinal`: January 1 of year 1 is ordinal 1. -/
def toOrdinal (d : PDate) : Nat :=
  daysBeforeYear d.year + daysBeforeMonth d.year d.month + d.day

/-- Python `date.weekday`: Monday = 0, ..., Sunday = 6. -/
def weekday (d : PDate) : Nat :=
  (toOrdinal d + 6) % 7

/-- Validity as enforced by the `datetime.date` constructor and
`date.replace` (which raise `ValueError` otherwise). -/
def dateValid (y m d : Nat) : Bool :=
  1 ≤ y && y ≤ 9999 && 1 ≤ m && m ≤ 12 && 1 ≤ d && d ≤ daysInMonth y m

/-- Model of `date(y, m, d)` / `date.replace`: `some` on a valid date,
`none` models the `ValueError` raise. -/
def mkDate? (y m d : Nat) : Option PDate :=
  if dateValid y m d then some ⟨y, m, d⟩ else none

/-- The predecessor day (used for `- timedelta(days=1)`). -/
def prevDay (d : PDate) : PDate :=
  if 1 < d.day then ⟨d.year, d.month, d.day - 1⟩
  else if 1 < d.month then ⟨d.year, d.month - 1, daysInMonth d.year (d.month - 1)⟩
  else ⟨d.year - 1, 12, 31⟩

/-- The successor day. -/
def nextDay (d : PDate) : PDate :=
  if d.day < daysInMonth d.year d.month then ⟨d.year, d.month, d.day + 1⟩
  else if d.month < 12 then ⟨d.year, d.month + 1, 1⟩
  else ⟨d.year + 1, 1, 1⟩

/-- Model of `d - timedelta(days=k)`. -/
def subDays (d : PDate) : Nat → PDate
  | 0 => d
  | k + 1 => prevDay (subDays d k)

/-- Model of `d + timedelta(days=k)`. -/
def addDays (d : PDate) : Nat → PDate
  | 0 => d
  | k + 1 => nextDay (addDays d k)

/-- Date comparison (dates compare by ordinal; on valid dates this is
the lexicographic year/month/day order Python uses). -/
def dateLe (a b : PDate) : Bool :=
  toOrdinal a ≤ toOrdinal b

/-! ### Period resolution (`get_period_dates`, reports.py lines 82-112) -/

/-- The `PeriodType` enum of reports.py. -/
inductive PeriodType where
  | week | month | quarter | year | custom
  deriving DecidableEq, Repr

/-- The `ExportFormat` enum of reports.py. -/
inductive ExportFormat where
  | csv | pdf | excel
  deriving DecidableEq, Repr

/-- Shallow embedding of `get_period_dates(period, start_date, end_date)`
with `today = date.today()` passed explicitly.  `none` models an
uncaught `ValueError` from `date.replace`. -/
def get_period_dates (period : PeriodType) (start_date end_date : Option PDate)
    (today : PDate) : Option (PDate × PDate) :=
  if period = PeriodType.custom ∧ start_date.isSome ∧ end_date.isSome then
    match start_date, end_date with
    | some s, some e => some (s, e)
    | _, _ => none
  else if period = PeriodType.week then
    let start := subDays today (weekday today)
    some (start, addDays start 6)
  else if period = PeriodType.month then
    (mkDate? today.year today.month 1).bind fun start =>
      if today.month = 12 then
        (mkDate? (today.year + 1) 1 1).map fun e => (start, prevDay e)
      else
        (mkDate? today.year (today.month + 1) 1).map fun e => (start, prevDay e)
  else if period = PeriodType.quarter then
    let quarter_month := ((today.month - 1) / 3) * 3 + 1
    (mkDate? today.year quarter_month 1).bind fun start =>
      if quarter_month + 2 ≤ 12 then
        (mkDate? today.year (quarter_month + 3) 1).map fun e => (start, prevDay e)
      else
        (mkDate? (today.year + 1) 1 1).map fun e => (start, prevDay e)
  else if period = PeriodType.year then
    (mkDate? today.year 1 1).bind fun start =>
      (mkDate? today.year 12 31).map fun e => (start, e)
  else
    (mkDate? today.year today.month 1).map fun start => (start, today)

/-! ### Settings (`src/core/settings.py`) -/

/-- The process-wide configuration (`Settings` in settings.py); token
functions read `SECRET_KEY`, `ACCESS_TOKEN_EXPIRE_MINUTES` and
`EMAIL_TOKEN_EXPIRE_HOURS` from it. -/
structure Settings where
  SECRET_KEY : String
  ACCESS_TOKEN_EXPIRE_MINUTES : Nat
  EMAIL_TOKEN_EXPIRE_HOURS : Nat
  deriving DecidableEq, Repr

/-- The default settings values from settings.py. -/
def defaultSettings : Settings :=
  { SECRET_KEY := "your-secret-key-change-in-production"
    ACCESS_TOKEN_EXPIRE_MINUTES := 15
    EMAIL_TOKEN_EXPIRE_HOURS := 24 }

/-! ### Token service (`src/core/security.py`)

A JWT is modelled as its claim set plus a signature; the signature is
modelled as the signing key together with the exact claim set that was
signed, which captures tamper evidence: `jwt.decode` succeeds only if
the signature was produced with the same key over the same claims.
Times are seconds (Python's `exp` claim is a Unix timestamp). -/

/-- The claim sets this code base puts in tokens: an optional `sub`,
an optional `type` tag, and the `exp` expiry instant. -/
structure JwtClaims where
  sub : Option String
  typ : Option String
  exp : Nat
  deriving DecidableEq, Repr

/-- A signed token. -/
structure Jwt where
  claims : JwtClaims
  sigKey : String
  sigClaims : JwtClaims
  deriving DecidableEq, Repr

/-- Model of `jwt.encode(claims, key)`. -/
def jwtEncode (key : String) (c : JwtClaims) : Jwt :=
  ⟨c, key, c⟩

/-- Model of `jwt.decode(token, key)`: checks the signature and the `exp` claim
(python-jose accepts iff `now ≤ exp`); `none` models `JWTError`. -/
def jwtDecode (key : String) (t : Jwt) (now : Nat) : Option JwtClaims :=
  if t.sigKey = key ∧ t.sigClaims = t.claims ∧ now ≤ t.claims.exp then
    some t.claims
  else none

/-- Model of `create_access_token(data={"sub": sub}, expires_delta)`; the delta is
in seconds here, `none` meaning the `ACCESS_TOKEN_EXPIRE_MINUTES` default.
Note: no `type` claim is embedded. -/
def create_access_token (s : Settings) (now : Nat) (sub : String)
    (expires_delta : Option Nat) : Jwt :=
  let expire := match expires_delta with
    | some d => now + d
    | none => now + s.ACCESS_TOKEN_EXPIRE_MINUTES * 60
  jwtEncode s.SECRET_KEY ⟨some sub, none, expire⟩

/-- Model of `create_email_verification_token(email)` at instant `now`. -/
def create_email_verification_token (s : Settings) (now : Nat) (email : String) : Jwt :=
  jwtEncode s.SECRET_KEY
    ⟨some email, some "email_verification", now + s.EMAIL_TOKEN_EXPIRE_HOURS * 3600⟩

/-- Model of `verify_email_token(token)` at instant `now`. -/
def verify_email_token (s : Settings) (t : Jwt) (now : Nat) : Option String :=
  match jwtDecode s.SECRET_KEY t now with
  | none => none
  | some payload =>
    if payload.typ ≠ some "email_verification" ∨ payload.sub = none then none
    else payload.sub

/-- Model of `create_password_reset_token(email)` at instant `now`. -/
def create_password_reset_token (s : Settings) (now : Nat) (email : String) : Jwt :=
  jwtEncode s.SECRET_KEY
    ⟨some email, some "password_reset", now + s.EMAIL_TOKEN_EXPIRE_HOURS * 3600⟩

/-- Model of `verify_password_reset_token(token)` at instant `now`. -/
def verify_password_reset_token (s : Settings) (t : Jwt) (now : Nat) : Option String :=
  match jwtDecode s.SECRET_KEY t now with
  | none => none
  | some payload =>
    if payload.typ ≠ some "password_reset" ∨ payload.sub = none then none
    else payload.sub

/-- Model of `verify_token(token)` at instant `now`: decodes and returns the whole
payload; performs no check on the `type` claim.  This is the verifier the
session-access dependency uses. -/
def verify_token (s : Settings) (t : Jwt) (now : Nat) : Option JwtClaims :=
  jwtDecode s.SECRET_KEY t now

/-- Model of `validate_password_strength(password)`: `(ok, message)`. -/
def validate_password_strength (password : String) : Bool × String :=
  if password.length < 8 then
    (false, "Password must be at least 8 characters long")
  else if ¬ password.data.any Char.isUpper then
    (false, "Password must contain at least one uppercase letter")
  else if ¬ password.data.any Char.isLower then
    (false, "Password must contain at least one lowercase letter")
  else if ¬ password.data.any Char.isDigit then
    (false, "Password must contain at least one number")
  else (true, "Password is valid")

/-! ### Credential verifier (opaque hash/verify capability)

bcrypt is outside the repository; per the spec it is an opaque pair
`hash`/`verify` with `verify(p, hash(p)) = true` and distinguishing
distinct passwords.  We model it by an injective tagging. -/

/-- Abstract model of `hash_password` (bcrypt). -/
def hash_password (password : String) : String :=
  "bcrypt$" ++ password

/-- Abstract model of `verify_password`. -/
def verify_password (plain hashed : String) : Bool :=
  hashed = hash_password plain

/-! ### Account manager (`src/apps/auth/views.py`)

The user store is the `users` table, a list of rows; `models.py` puts a
UNIQUE constraint on `users.email`, so a commit inserting a row whose
email already exists raises `IntegrityError` (modelled as a distinct
error).  SQLite (the configured backend) compares strings with the
case-sensitive BINARY collation, so ORM equality filters are exact
string equality. -/

/-- A row of the `users` table (fields relevant to the claims). -/
structure UserR where
  id : String
  first_name : String
  last_name : String
  email : String
  hashed_password : String
  is_active : Bool
  is_verified : Bool
  last_login : Option Nat
  deriving DecidableEq, Repr

/-- Body of a `POST /auth/register` request after schema validation
(password/confirm equality is checked by the schema before this layer). -/
structure RegisterRequest where
  first_name : String
  last_name : String
  email : String
  password : String
  deriving DecidableEq, Repr

inductive RegisterError where
  /-- HTTP 400 "Email address is already registered". -/
  | duplicateEmail
  /-- HTTP 400 with the strength-check message. -/
  | weakPassword (msg : String)
  /-- Uncaught `IntegrityError` from the UNIQUE(email) constraint at
  commit time (surfaces as HTTP 500, not a handled failure). -/
  | integrityError
  deriving DecidableEq, Repr

/-- Model of `register` (views.py lines 23-73): duplicate check against the RAW
submitted email, strength check, then insert with the LOWERCASED email;
the commit enforces UNIQUE(email). -/
def register (db : List UserR) (req : RegisterRequest) (newId : String) :
    Except RegisterError (List UserR × UserR) :=
  match db.find? (fun u => u.email = req.email) with
  | some _ => .error .duplicateEmail
  | none =>
    let strength := validate_password_strength req.password
    if ¬ strength.1 then .error (.weakPassword strength.2)
    else
      let newUser : UserR :=
        { id := newId
          first_name := req.first_name
          last_name := req.last_name
          email := strLower req.email
          hashed_password := hash_password req.password
          is_active := true
          is_verified := false
          last_login := none }
      if db.any (fun u => u.email = newUser.email) then .error .integrityError
      else .ok (db ++ [newUser], newUser)

inductive LoginError where
  /-- HTTP 401 "Incorrect email or password" (user absent OR bad password). -/
  | invalidCredentials
  /-- HTTP 400 "Account has been deactivated. Please contact support." -/
  | accountDeactivated
  /-- HTTP 400 "Please verify your email address before logging in." -/
  | emailNotVerified
  deriving DecidableEq, Repr

/-- Model of `login` (views.py lines 75-115): lookup by lowercased email, combined
absent-or-bad-password check, active check, verified check, then issue a
session token and set `last_login`. -/
def login (s : Settings) (db : List UserR) (email password : String) (now : Nat) :
    Except LoginError (List UserR × Jwt × UserR) :=
  match db.find? (fun u => u.email = strLower email) with
  | none => .error .invalidCredentials
  | some user =>
    if ¬ verify_password password user.hashed_password then .error .invalidCredentials
    else if ¬ user.is_active then .error .accountDeactivated
    else if ¬ user.is_verified then .error .emailNotVerified
    else
      let token := create_access_token s now user.email
        (some (s.ACCESS_TOKEN_EXPIRE_MINUTES * 60))
      let user2 : UserR := { user with last_login := some now }
      let db2 := db.map (fun v => if v.id = user.id then { v with last_login := some now } else v)
      .ok (db2, token, user2)

inductive VerifyEmailError where
  /-- HTTP 400 "Invalid or expired verification token". -/
  | invalidToken
  /-- HTTP 404 "User not found". -/
  | userNotFound
  deriving DecidableEq, Repr

/-- Set `is_verified` on the first row with the given email (the ORM
updates the single row returned by `.first()`). -/
def setVerifiedFirst : List UserR → String → List UserR
  | [], _ => []
  | u :: rest, e =>
    if u.email = e then { u with is_verified := true } :: rest
    else u :: setVerifiedFirst rest e

/-- Model of `verify_email` (views.py lines 117-145). -/
def verify_email (s : Settings) (db : List UserR) (t : Jwt) (now : Nat) :
    Except VerifyEmailError (List UserR × String) :=
  match verify_email_token s t now with
  | none => .error .invalidToken
  | some email =>
    match db.find? (fun u => u.email = email) with
    | none => .error .userNotFound
    | some user =>
      if user.is_verified then .ok (db, "Email address is already verified")
      else .ok (setVerifiedFirst db email,
        "Email address verified successfully! You can now log in.")

/-! ### Budget ledger (`src/apps/budget/models.py`, `categories.py`)

Money columns are `Numeric(10,2)`; we model amounts in ℚ. -/

/-- A row of the `budget_categories` table. -/
structure CatR where
  id : String
  user_id : String
  name : String
  budget_amount : ℚ
  is_active : Bool
  deriving DecidableEq, Repr

/-- A row of the `expenses` table. -/
structure ExpR where
  id : String
  user_id : String
  category_id : String
  description : String
  amount : ℚ
  expense_date : PDate
  created_at : Nat
  deriving DecidableEq, Repr

/-- The budget-side store. -/
structure Store where
  categories : List CatR
  expenses : List ExpR
  deriving DecidableEq, Repr

/-- Sum of the amounts of a list of expense rows (`func.sum` with
`coalesce`/`or 0` giving 0 on the empty set). -/
def sumAmounts (l : List ExpR) : ℚ :=
  (l.map (fun e => e.amount)).sum

inductive DeleteCategoryError where
  /-- HTTP 404 "Budget category not found". -/
  | notFound
  /-- HTTP 400 "Cannot delete category with {n} associated expenses.
  Use force=true to override." — carries the reported count. -/
  | hasExpenses (count : Nat)
  deriving DecidableEq, Repr

/-- Model of `delete_budget_category` (categories.py lines 267-322). -/
def delete_budget_category (st : Store) (uid cid : String) (force : Bool) :
    Except DeleteCategoryError (Store × String) :=
  match st.categories.find? (fun c => c.id = cid && c.user_id = uid) with
  | none => .error .notFound
  | some cat =>
    let expense_count :=
      (st.expenses.filter (fun e => e.category_id = cid && e.user_id = uid)).length
    if expense_count > 0 && !force then .error (.hasExpenses expense_count)
    else if force then
      .ok ({ categories := st.categories.filter (fun c => !(c.id = cat.id)),
             expenses := st.expenses.filter
               (fun e => !(e.category_id = cid && e.user_id = uid)) },
           "Budget category deleted successfully")
    else
      let cats2 := st.categories.map
        (fun c => if c.id = cat.id then { c with is_active := false } else c)
      .ok ({ st with categories := cats2 }, "Budget category deactivated successfully")

/-- One per-category entry of the budget summary overview. -/
structure CategorySummaryRow where
  id : String
  name : String
  budget_amount : ℚ
  spent_amount : ℚ
  remaining_budget : ℚ
  utilization_percentage : ℚ
  deriving DecidableEq, Repr

/-- The `BudgetSummary` response of `GET /budget/categories/summary/overview`. -/
structure BudgetSummary where
  total_budget : ℚ
  total_spent : ℚ
  total_remaining : ℚ
  budget_utilization : ℚ
  category_count : Nat
  categories : List CategorySummaryRow
  deriving DecidableEq, Repr

/-- Spending of category `cid` as aggregated by the overview's outer
join (`Expense.category_id == id AND Expense.user_id == uid`, no date
filter). -/
def overviewCatSpent (st : Store) (uid cid : String) : ℚ :=
  sumAmounts (st.expenses.filter (fun e => e.category_id = cid && e.user_id = uid))

/-- Model of `get_budget_summary` (categories.py lines 324-380). -/
def get_budget_summary (st : Store) (uid : String) : BudgetSummary :=
  let cats := st.categories.filter (fun c => c.user_id = uid && c.is_active)
  let withSpending := cats.map (fun c => (c, overviewCatSpent st uid c.id))
  let total_budget := (withSpending.map (fun p => p.1.budget_amount)).sum
  let total_spent := (withSpending.map (fun p => p.2)).sum
  { total_budget := total_budget
    total_spent := total_spent
    total_remaining := total_budget - total_spent
    budget_utilization :=
      if total_budget > 0 then total_spent / total_budget * 100 else 0
    category_count := withSpending.length
    categories := withSpending.map (fun p =>
      { id := p.1.id
        name := p.1.name
        budget_amount := p.1.budget_amount
        spent_amount := p.2
        remaining_budget := p.1.budget_amount - p.2
        utilization_percentage :=
          if p.1.budget_amount > (0 : ℚ) then p.2 / p.1.budget_amount * 100 else 0 }) }

/-! ### Report aggregator (`src/apps/budget/reports.py`) -/

/-- Whether `expense_date` lies in `[ps, pe]` (the SQL `>= AND <=` filter). -/
def inRange (e : ExpR) (ps pe : PDate) : Bool :=
  dateLe ps e.expense_date && dateLe e.expense_date pe

/-- Total spent in range for the financial summary: filters by user and
date range only (no category condition at all). -/
def summaryTotalSpent (st : Store) (uid : String) (ps pe : PDate) : ℚ :=
  sumAmounts (st.expenses.filter (fun e => e.user_id = uid && inRange e ps pe))

/-- Total budget across the user's active categories. -/
def totalActiveBudget (st : Store) (uid : String) : ℚ :=
  ((st.categories.filter (fun c => c.user_id = uid && c.is_active)).map
    (fun c => c.budget_amount)).sum

/-- The `FinancialSummaryData` response model. -/
structure FinancialSummaryData where
  total_spent : ℚ
  average_monthly : ℚ
  budget_utilization : ℚ
  savings_rate : ℚ
  period_start : PDate
  period_end : PDate
  deriving DecidableEq, Repr

/-- Model of `get_financial_summary` (reports.py lines 114-161); `none` models an
uncaught exception from period resolution. -/
def get_financial_summary (st : Store) (uid : String) (period : PeriodType)
    (start_date end_date : Option PDate) (today : PDate) :
    Option FinancialSummaryData :=
  (get_period_dates period start_date end_date today).map fun pse =>
    let period_start := pse.1
    let period_end := pse.2
    let total_spent := summaryTotalSpent st uid period_start period_end
    let total_budget := totalActiveBudget st uid
    let days_in_period : Int :=
      (toOrdinal period_end : Int) - (toOrdinal period_start : Int) + 1
    { total_spent := total_spent
      average_monthly :=
        if days_in_period > 0 then total_spent / (days_in_period : ℚ) * 30
        else total_spent
      budget_utilization :=
        if total_budget > 0 then total_spent / total_budget * 100 else 0
      savings_rate :=
        if total_budget > 0 then (total_budget - total_spent) / total_budget * 100
        else 0
      period_start := period_start
      period_end := period_end }

/-- Spending of category `cid` in range as aggregated by the breakdown's
and insights' outer join: `Expense.category_id == id` plus the date
bounds — note there is no `Expense.user_id` condition in this join. -/
def rangeCatSpent (st : Store) (cid : String) (ps pe : PDate) : ℚ :=
  sumAmounts (st.expenses.filter (fun e => e.category_id = cid && inRange e ps pe))

/-- The `CategoryBreakdownData` response model. -/
structure CategoryBreakdownData where
  category_name : String
  spent : ℚ
  budget : ℚ
  percentage : ℚ
  utilization : ℚ
  deriving DecidableEq, Repr

/-- Model of `get_category_breakdown` (reports.py lines 221-271). -/
def get_category_breakdown (st : Store) (uid : String) (period : PeriodType)
    (start_date end_date : Option PDate) (today : PDate) :
    Option (List CategoryBreakdownData) :=
  (get_period_dates period start_date end_date today).map fun pse =>
    let cats := st.categories.filter (fun c => c.user_id = uid && c.is_active)
    let rows := cats.map (fun c => (c, rangeCatSpent st c.id pse.1 pse.2))
    let total_spent := (rows.map (fun p => p.2)).sum
    rows.map (fun p =>
      { category_name := p.1.name
        spent := p.2
        budget := p.1.budget_amount
        percentage := if total_spent > (0 : ℚ) then p.2 / total_spent * 100 else 0
        utilization :=
          if p.1.budget_amount > (0 : ℚ) then p.2 / p.1.budget_amount * 100 else 0 })

/-- The `AlertType` enum. -/
inductive AlertType where
  | warning | danger | info
  deriving DecidableEq, Repr

/-- An insight entry (the interpolated human-readable message text is
elided; type, title, amount and category carry the content). -/
structure InsightData where
  type : AlertType
  title : String
  amount : Option ℚ
  category : Option String
  deriving DecidableEq, Repr

/-- Model of `get_financial_insights` (reports.py lines 311-376): current-month
rows as in the breakdown join, danger at ≥90% utilization, else warning
at ≥75%, plus up to three unused-budget infos (suppressed entirely when
more than three categories have zero spending). -/
def get_financial_insights (st : Store) (uid : String) (today : PDate) :
    List InsightData :=
  let current_month_start : PDate := ⟨today.year, today.month, 1⟩
  let cats := st.categories.filter (fun c => c.user_id = uid && c.is_active)
  let rows := cats.map (fun c => (c, rangeCatSpent st c.id current_month_start today))
  let alerts := rows.filterMap (fun p =>
    let utilization :=
      if p.1.budget_amount > 0 then p.2 / p.1.budget_amount * 100 else 0
    if utilization ≥ 90 then
      some { type := AlertType.danger, title := "Budget Nearly Exceeded",
             amount := some p.2, category := some p.1.name }
    else if utilization ≥ 75 then
      some { type := AlertType.warning, title := "High Budget Usage",
             amount := some p.2, category := some p.1.name }
    else none)
  let no_spending := rows.filter (fun p => p.2 = 0)
  let infos :=
    if no_spending ≠ [] ∧ no_spending.length ≤ 3 then
      (no_spending.take 3).map (fun p =>
        { type := AlertType.info, title := "Unused Budget",
          amount := none, category := some p.1.name })
    else []
  alerts ++ infos

/-- A row of the exported CSV: the fixed header, or one data row with
columns (Date, Amount, Description, Category, Created At). -/
inductive CsvRow where
  | header
  | data (date : PDate) (amount : ℚ) (description categoryName : String)
      (createdAt : Nat)
  deriving DecidableEq, Repr

/-- The export query's join rows: the user's in-range expenses, each
paired with its category's name (inner join on `category_id`). -/
def exportJoinRows (st : Store) (uid : String) (ps pe : PDate) :
    List (ExpR × String) :=
  (st.expenses.filter (fun e => e.user_id = uid && inRange e ps pe)).filterMap
    (fun e => (st.categories.find? (fun c => c.id = e.category_id)).map
      (fun c => (e, c.name)))

/-- The descending-by-expense-date order used by `ORDER BY expense_date DESC`. -/
def exportLe (a b : ExpR × String) : Prop :=
  toOrdinal b.1.expense_date ≤ toOrdinal a.1.expense_date

instance : DecidableRel exportLe := fun a b =>
  inferInstanceAs (Decidable (toOrdinal b.1.expense_date ≤ toOrdinal a.1.expense_date))

instance : IsTotal (ExpR × String) exportLe :=
  ⟨fun a b => Nat.le_total (toOrdinal b.1.expense_date) (toOrdinal a.1.expense_date)⟩

instance : IsTrans (ExpR × String) exportLe :=
  ⟨fun _ _ _ hab hbc => Nat.le_trans hbc hab⟩

/-- Model of `ORDER BY expense_date DESC` realised as a sort. -/
def sortDateDesc (l : List (ExpR × String)) : List (ExpR × String) :=
  List.insertionSort exportLe l

/-- Model of `export_report_data` (reports.py lines 378-433): the format gate
runs first; `.error` is the HTTP 400 for a non-CSV format, and the inner
`none` models an uncaught exception from period resolution. -/
def export_report_data (st : Store) (uid : String) (format : ExportFormat)
    (period : PeriodType) (start_date end_date : Option PDate) (today : PDate) :
    Except String (Option (List CsvRow)) :=
  if format ≠ ExportFormat.csv then
    .error "Only CSV export is currently supported"
  else
    .ok ((get_period_dates period start_date end_date today).map fun pse =>
      CsvRow.header ::
        (sortDateDesc (exportJoinRows st uid pse.1 pse.2)).map
          (fun p => CsvRow.data p.1.expense_date p.1.amount p.1.description
            p.2 p.1.created_at))

/-! ## Token-service characterisations -/

/-- Characterisation: `verify_email_token` succeeds exactly on a correctly-signed,
unexpired token with type tag `email_verification` and a subject. -/
theorem verify_email_token_eq_some (s : Settings) (t : Jwt) (now : Nat) (e : String) :
    verify_email_token s t now = some e ↔
      t.sigKey = s.SECRET_KEY ∧ t.sigClaims = t.claims ∧ now ≤ t.claims.exp ∧
      t.claims.typ = some "email_verification" ∧ t.claims.sub = some e := by
  unfold verify_email_token jwtDecode
  by_cases hc : t.sigKey = s.SECRET_KEY ∧ t.sigClaims = t.claims ∧ now ≤ t.claims.exp
  · rw [if_pos hc]
    by_cases ht : t.claims.typ = some "email_verification"
    · by_cases hs : t.claims.sub = none
      · simp [ht, hs, hc]
      · simp [ht, hs, hc]
    · simp [ht, hc]
  · rw [if_neg hc]
    simp only [false_iff, reduceCtorEq]
    intro h
    exact hc ⟨h.1, h.2.1, h.2.2.1⟩

/-- Characterisation: `verify_password_reset_token` succeeds exactly on a correctly-signed,
unexpired token with type tag `password_reset` and a subject. -/
theorem verify_password_reset_token_eq_some (s : Settings) (t : Jwt) (now : Nat) (e : String) :
    verify_password_reset_token s t now = some e ↔
      t.sigKey = s.SECRET_KEY ∧ t.sigClaims = t.claims ∧ now ≤ t.claims.exp ∧
      t.claims.typ = some "password_reset" ∧ t.claims.sub = some e := by
  unfold verify_password_reset_token jwtDecode
  by_cases hc : t.sigKey = s.SECRET_KEY ∧ t.sigClaims = t.claims ∧ now ≤ t.claims.exp
  · rw [if_pos hc]
    by_cases ht : t.claims.typ = some "password_reset"
    · by_cases hs : t.claims.sub = none
      · simp [ht, hs, hc]
      · simp [ht, hs, hc]
    · simp [ht, hc]
  · rw [if_neg hc]
    simp only [false_iff, reduceCtorEq]
    intro h
    exact hc ⟨h.1, h.2.1, h.2.2.1⟩

/-- Characterisation: `verify_token` (the session verifier) succeeds exactly on a
correctly-signed unexpired token, with no condition on the type tag. -/
theorem verify_token_eq_some (s : Settings) (t : Jwt) (now : Nat) :
    verify_token s t now = some t.claims ↔
      t.sigKey = s.SECRET_KEY ∧ t.sigClaims = t.claims ∧ now ≤ t.claims.exp := by
  unfold verify_token jwtDecode
  by_cases hc : t.sigKey = s.SECRET_KEY ∧ t.sigClaims = t.claims ∧ now ≤ t.claims.exp
  · simp [hc]
  · simp [hc]

/-! ## Claim C1 -/

/-- C1 (counterexample): the claim "a correctly-signed, unexpired token
of one type is rejected as invalid by any consumer expecting a different
type" fails for the session-access consumer: `verify_token`, the
verifier used for session access, accepts a freshly issued
email-verification token (it returns its payload instead of the invalid
result `None`). -/
theorem C1_counterexample :
    verify_token defaultSettings
        (create_email_verification_token defaultSettings 0 "user@example.com") 0 =
      some ⟨some "user@example.com", some "email_verification", 86400⟩ := by
  decide

/-- C1 (amended): the email-verification and password-reset consumers
accept a token only if its signature verifies under the process secret,
it has not expired, and its embedded type tag equals the expected type —
in particular each rejects freshly issued tokens of the other type —
but the session-access verifier `verify_token` checks only the signature
and expiry and imposes no condition on the type tag. -/
theorem C1_token_type_checks (s : Settings) (t : Jwt) (now : Nat) :
    (∀ e, verify_email_token s t now = some e →
      t.sigKey = s.SECRET_KEY ∧ t.sigClaims = t.claims ∧ now ≤ t.claims.exp ∧
      t.claims.typ = some "email_verification" ∧ t.claims.sub = some e) ∧
    (∀ e, verify_password_reset_token s t now = some e →
      t.sigKey = s.SECRET_KEY ∧ t.sigClaims = t.claims ∧ now ≤ t.claims.exp ∧
      t.claims.typ = some "password_reset" ∧ t.claims.sub = some e) ∧
    (∀ email issued,
      verify_password_reset_token s (create_email_verification_token s issued email) now
        = none) ∧
    (∀ email issued,
      verify_email_token s (create_password_reset_token s issued email) now = none) ∧
    (verify_token s t now = some t.claims ↔
      t.sigKey = s.SECRET_KEY ∧ t.sigClaims = t.claims ∧ now ≤ t.claims.exp) := by
  refine ⟨fun e h => (verify_email_token_eq_some s t now e).mp h,
    fun e h => (verify_password_reset_token_eq_some s t now e).mp h, ?_, ?_,
    verify_token_eq_some s t now⟩
  · intro email issued
    cases h : verify_password_reset_token s (create_email_verification_token s issued email) now with
    | none => rfl
    | some e =>
      have := (verify_password_reset_token_eq_some s _ now e).mp h
      simp [create_email_verification_token, jwtEncode] at this
  · intro email issued
    cases h : verify_email_token s (create_password_reset_token s issued email) now with
    | none => rfl
    | some e =>
      have := (verify_email_token_eq_some s _ now e).mp h
      simp [create_password_reset_token, jwtEncode] at this

/-- Witness for `C1_token_type_checks` at a concrete token. -/
theorem C1_token_type_checks_witness :
    (create_email_verification_token defaultSettings 0 "user@example.com").claims.sub =
      some "user@example.com" :=
  ((C1_token_type_checks defaultSettings
      (create_email_verification_token defaultSettings 0 "user@example.com") 0).1
    "user@example.com" (by decide)).2.2.2.2

/-! ## Claim C2 -/

/-- C2: period resolution.  The quarter arithmetic is broken for a today
in October–December: the guard `quarter_month + 2 <= 12` is satisfied
for the fourth quarter (`10 + 2 <= 12`), so the code evaluates
`today.replace(month=13, day=1)`, which raises `ValueError` (modelled as
`none`) instead of resolving to `[Oct 1, Dec 31]`; the year-rollover
branch is dead code.  The remaining branches behave as specified, shown
here on representative inputs. -/
theorem C2_get_period_dates :
    get_period_dates PeriodType.quarter none none ⟨2024, 12, 20⟩ = none ∧
    get_period_dates PeriodType.quarter none none ⟨2024, 10, 1⟩ = none ∧
    get_period_dates PeriodType.quarter none none ⟨2024, 3, 15⟩ =
      some (⟨2024, 1, 1⟩, ⟨2024, 3, 31⟩) ∧
    get_period_dates PeriodType.quarter none none ⟨2024, 8, 2⟩ =
      some (⟨2024, 7, 1⟩, ⟨2024, 9, 30⟩) ∧
    get_period_dates PeriodType.week none none ⟨2024, 3, 15⟩ =
      some (⟨2024, 3, 11⟩, ⟨2024, 3, 17⟩) ∧
    get_period_dates PeriodType.month none none ⟨2024, 3, 15⟩ =
      some (⟨2024, 3, 1⟩, ⟨2024, 3, 31⟩) ∧
    get_period_dates PeriodType.month none none ⟨2024, 12, 20⟩ =
      some (⟨2024, 12, 1⟩, ⟨2024, 12, 31⟩) ∧
    get_period_dates PeriodType.year none none ⟨2024, 12, 20⟩ =
      some (⟨2024, 1, 1⟩, ⟨2024, 12, 31⟩) ∧
    get_period_dates PeriodType.custom (some ⟨2024, 2, 3⟩) (some ⟨2024, 4, 5⟩)
        ⟨2024, 12, 20⟩ = some (⟨2024, 2, 3⟩, ⟨2024, 4, 5⟩) ∧
    get_period_dates PeriodType.custom none (some ⟨2024, 4, 5⟩) ⟨2024, 12, 20⟩ =
      some (⟨2024, 12, 1⟩, ⟨2024, 12, 20⟩) := by
  decide

/-! ## Claim C4 -/

/-- C4: token round-trip.  For every subject, issuance instant and
configured ttl, verifying a freshly issued email-verification
(resp. password-reset) token with the matching consumer returns the
subject at any instant up to expiry, and returns the invalid result
`None` at any instant after the ttl has elapsed. -/
theorem C4_token_roundtrip (s : Settings) (email : String) (issued now : Nat) :
    (now ≤ issued + s.EMAIL_TOKEN_EXPIRE_HOURS * 3600 →
      verify_email_token s (create_email_verification_token s issued email) now =
        some email) ∧
    (issued + s.EMAIL_TOKEN_EXPIRE_HOURS * 3600 < now →
      verify_email_token s (create_email_verification_token s issued email) now = none) ∧
    (now ≤ issued + s.EMAIL_TOKEN_EXPIRE_HOURS * 3600 →
      verify_password_reset_token s (create_password_reset_token s issued email) now =
        some email) ∧
    (issued + s.EMAIL_TOKEN_EXPIRE_HOURS * 3600 < now →
      verify_password_reset_token s (create_password_reset_token s issued email) now =
        none) := by
  refine ⟨?_, ?_, ?_, ?_⟩
  · intro h
    exact (verify_email_token_eq_some s _ now email).mpr ⟨rfl, rfl, h, rfl, rfl⟩
  · intro h
    cases hv : verify_email_token s (create_email_verification_token s issued email) now with
    | none => rfl
    | some e =>
      have := ((verify_email_token_eq_some s _ now e).mp hv).2.2.1
      simp only [create_email_verification_token, jwtEncode] at this
      omega
  · intro h
    exact (verify_password_reset_token_eq_some s _ now email).mpr ⟨rfl, rfl, h, rfl, rfl⟩
  · intro h
    cases hv : verify_password_reset_token s (create_password_reset_token s issued email) now with
    | none => rfl
    | some e =>
      have := ((verify_password_reset_token_eq_some s _ now e).mp hv).2.2.1
      simp only [create_password_reset_token, jwtEncode] at this
      omega

/-- Witness for `C4_token_roundtrip`: a token issued at time 0 with the
default 24-hour ttl verifies at time 86400 and not at 86401. -/
theorem C4_token_roundtrip_witness :
    verify_email_token defaultSettings
        (create_email_verification_token defaultSettings 0 "a@b.com") 86400 =
      some "a@b.com" ∧
    verify_email_token defaultSettings
        (create_email_verification_token defaultSettings 0 "a@b.com") 86401 = none :=
  ⟨(C4_token_roundtrip defaultSettings "a@b.com" 0 86400).1 (by decide),
   (C4_token_roundtrip defaultSettings "a@b.com" 0 86401).2.1 (by decide)⟩

/-! ## Claim C5 -/

/-- C5: login gating.  Absent user and wrong password both yield the
single generic `invalidCredentials` error; a correct password on an
inactive user yields `accountDeactivated`; a correct password on an
active unverified user yields `emailNotVerified`; and only when all
checks pass does login return a session token together with the user
profile, with the last-login timestamp updated in the store. -/
theorem C5_login_gating (s : Settings) (db : List UserR) (email password : String)
    (now : Nat) :
    (db.find? (fun u => u.email = strLower email) = none →
      login s db email password now = .error .invalidCredentials) ∧
    (∀ u, db.find? (fun u => u.email = strLower email) = some u →
      verify_password password u.hashed_password = false →
      login s db email password now = .error .invalidCredentials) ∧
    (∀ u, db.find? (fun u => u.email = strLower email) = some u →
      verify_password password u.hashed_password = true →
      u.is_active = false →
      login s db email password now = .error .accountDeactivated) ∧
    (∀ u, db.find? (fun u => u.email = strLower email) = some u →
      verify_password password u.hashed_password = true →
      u.is_active = true → u.is_verified = false →
      login s db email password now = .error .emailNotVerified) ∧
    (∀ u, db.find? (fun u => u.email = strLower email) = some u →
      verify_password password u.hashed_password = true →
      u.is_active = true → u.is_verified = true →
      login s db email password now =
        .ok (db.map (fun v => if v.id = u.id then { v with last_login := some now } else v),
             create_access_token s now u.email (some (s.ACCESS_TOKEN_EXPIRE_MINUTES * 60)),
             { u with last_login := some now })) := by
  refine ⟨fun h => ?_, fun u hf hv => ?_, fun u hf hv ha => ?_,
    fun u hf hv ha hver => ?_, fun u hf hv ha hver => ?_⟩
  · simp [login, h]
  · simp [login, hf, hv]
  · simp [login, hf, hv, ha]
  · simp [login, hf, hv, ha, hver]
  · simp [login, hf, hv, ha, hver]

/-- Witness for `C5_login_gating`: an inactive verified user with the
correct password fails with `accountDeactivated`. -/
theorem C5_login_gating_witness :
    login defaultSettings
        [{ id := "u1", first_name := "Jane", last_name := "Doe",
           email := "jane@example.com", hashed_password := hash_password "Password1",
           is_active := false, is_verified := true, last_login := none }]
        "jane@example.com" "Password1" 1000 = .error .accountDeactivated :=
  (C5_login_gating defaultSettings
      [{ id := "u1", first_name := "Jane", last_name := "Doe",
         email := "jane@example.com", hashed_password := hash_password "Password1",
         is_active := false, is_verified := true, last_login := none }]
      "jane@example.com" "Password1" 1000).2.2.1
    { id := "u1", first_name := "Jane", last_name := "Doe",
      email := "jane@example.com", hashed_password := hash_password "Password1",
      is_active := false, is_verified := true, last_login := none }
    (by decide) (by decide) (by decide)

/-! ## Claim C9 -/

/-- Marking the first user with a given email verified commutes with
looking that email up. -/
theorem find?_setVerifiedFirst (db : List UserR) (e : String) (u : UserR)
    (h : db.find? (fun v => v.email = e) = some u) :
    (setVerifiedFirst db e).find? (fun v => v.email = e) =
      some { u with is_verified := true } := by
  induction db with
  | nil => simp at h
  | cons a rest ih =>
    by_cases ha : a.email = e
    · rw [List.find?_cons_of_pos _ (by simp [ha])] at h
      cases h
      simp only [setVerifiedFirst, if_pos ha]
      exact List.find?_cons_of_pos _ (by simp [ha])
    · rw [List.find?_cons_of_neg _ (by simp [ha])] at h
      simp only [setVerifiedFirst, if_neg ha]
      rw [List.find?_cons_of_neg _ (by simp [ha])]
      exact ih h

/-- C9: re-verification is an idempotent no-op.  If the token service
accepts the token and its subject user exists and is already verified,
`verify_email` returns the "already verified" success and leaves the
store unchanged; and applying `verify_email` a second time after any
successful application returns the same store again. -/
theorem C9_verify_email_idempotent (s : Settings) (db : List UserR) (t : Jwt)
    (now : Nat) (e : String) (u : UserR)
    (h1 : verify_email_token s t now = some e)
    (h2 : db.find? (fun v => v.email = e) = some u) :
    (u.is_verified = true →
      verify_email s db t now = .ok (db, "Email address is already verified")) ∧
    (∀ db2 m, verify_email s db t now = .ok (db2, m) →
      verify_email s db2 t now = .ok (db2, "Email address is already verified")) := by
  constructor
  · intro hv
    simp [verify_email, h1, h2, hv]
  · intro db2 m hok
    by_cases hv : u.is_verified
    · simp [verify_email, h1, h2, hv] at hok
      rcases hok with ⟨hdb, hm⟩
      subst hdb
      simp [verify_email, h1, h2, hv]
    · simp [verify_email, h1, h2, hv] at hok
      rcases hok with ⟨hdb, hm⟩
      subst hdb
      simp [verify_email, h1, find?_setVerifiedFirst db e u h2]

/-- Witness for `C9_verify_email_idempotent`: a valid token for an
already-verified user yields the "already verified" success. -/
theorem C9_verify_email_idempotent_witness :
    verify_email defaultSettings
        [{ id := "u1", first_name := "Jane", last_name := "Doe",
           email := "jane@example.com", hashed_password := hash_password "Password1",
           is_active := true, is_verified := true, last_login := none }]
        (create_email_verification_token defaultSettings 0 "jane@example.com") 0 =
      .ok ([{ id := "u1", first_name := "Jane", last_name := "Doe",
              email := "jane@example.com", hashed_password := hash_password "Password1",
              is_active := true, is_verified := true, last_login := none }],
        "Email address is already verified") :=
  (C9_verify_email_idempotent defaultSettings
      [{ id := "u1", first_name := "Jane", last_name := "Doe",
         email := "jane@example.com", hashed_password := hash_password "Password1",
         is_active := true, is_verified := true, last_login := none }]
      (create_email_verification_token defaultSettings 0 "jane@example.com") 0
      "jane@example.com"
      { id := "u1", first_name := "Jane", last_name := "Doe",
        email := "jane@example.com", hashed_password := hash_password "Password1",
        is_active := true, is_verified := true, last_login := none }
      (by decide) (by decide)).1 (by decide)

/-! ## Claim C3 -/

/-- C3: the duplicate-email check is case-sensitive although the row is
stored lowercased.  With `john@example.com` registered, submitting
`John@example.com` (pydantic's `EmailStr` preserves local-part case)
passes the duplicate check, and the insert of the lowercased email then
violates the `users.email` UNIQUE constraint: the request fails with an
uncaught `IntegrityError` (HTTP 500), not `DuplicateEmail`.  An
exact-case resubmission does fail `DuplicateEmail`, and a successful
registration stores the lowercase-normalised email, unverified and
active. -/
theorem C3_register_duplicate_check :
    register
        [{ id := "u1", first_name := "John", last_name := "Doe",
           email := "john@example.com", hashed_password := hash_password "Password1",
           is_active := true, is_verified := true, last_login := none }]
        { first_name := "John", last_name := "Doe", email := "John@example.com",
          password := "Password1" } "u2" = .error .integrityError ∧
    register
        [{ id := "u1", first_name := "John", last_name := "Doe",
           email := "john@example.com", hashed_password := hash_password "Password1",
           is_active := true, is_verified := true, last_login := none }]
        { first_name := "John", last_name := "Doe", email := "john@example.com",
          password := "Password1" } "u2" = .error .duplicateEmail ∧
    register []
        { first_name := "John", last_name := "Doe", email := "John@example.com",
          password := "Password1" } "u1" =
      .ok ([{ id := "u1", first_name := "John", last_name := "Doe",
              email := "john@example.com", hashed_password := hash_password "Password1",
              is_active := true, is_verified := false, last_login := none }],
           { id := "u1", first_name := "John", last_name := "Doe",
             email := "john@example.com", hashed_password := hash_password "Password1",
             is_active := true, is_verified := false, last_login := none }) := by
  decide

/-! ## Concrete fixture store used by witnesses -/

/-- An active category owned by user `u1`. -/
def egCat : CatR :=
  { id := "c1", user_id := "u1", name := "Food", budget_amount := 100, is_active := true }

/-- A soft-deleted category owned by user `u1`. -/
def egCatInactive : CatR :=
  { id := "c2", user_id := "u1", name := "Old", budget_amount := 50, is_active := false }

def egExp1 : ExpR :=
  { id := "e1", user_id := "u1", category_id := "c1", description := "Lunch",
    amount := 30, expense_date := ⟨2024, 3, 10⟩, created_at := 1 }

def egExp2 : ExpR :=
  { id := "e2", user_id := "u1", category_id := "c1", description := "Dinner",
    amount := 45.5, expense_date := ⟨2024, 3, 11⟩, created_at := 2 }

/-- An expense attached to the inactive category. -/
def egExp3 : ExpR :=
  { id := "e3", user_id := "u1", category_id := "c2", description := "Ghost",
    amount := 7, expense_date := ⟨2024, 3, 12⟩, created_at := 3 }

/-- The fixture store. -/
def egStore : Store :=
  { categories := [egCat, egCatInactive], expenses := [egExp1, egExp2, egExp3] }

/-! ## Claim C6 -/

/-- C6: category deletion.  A missing or not-owned category fails
`notFound` under either force value; with force unset and at least one
associated expense the call fails with a conflict error carrying the
exact expense count (and, the result being an error, changes nothing);
with force set it succeeds and the resulting store contains exactly the
expenses not belonging to the category and exactly the categories other
than it; with force unset and zero expenses it succeeds and only the
category's active flag is flipped off. -/
theorem C6_delete_category (st : Store) (uid cid : String) :
    (st.categories.find? (fun c => c.id = cid && c.user_id = uid) = none →
      ∀ force, delete_budget_category st uid cid force = .error .notFound) ∧
    (∀ cat, st.categories.find? (fun c => c.id = cid && c.user_id = uid) = some cat →
      (0 < (st.expenses.filter (fun e => e.category_id = cid && e.user_id = uid)).length →
        delete_budget_category st uid cid false =
          .error (.hasExpenses
            (st.expenses.filter (fun e => e.category_id = cid && e.user_id = uid)).length)) ∧
      (∀ st2 m, delete_budget_category st uid cid true = .ok (st2, m) →
        (∀ e, e ∈ st2.expenses ↔
          e ∈ st.expenses ∧ ¬(e.category_id = cid ∧ e.user_id = uid)) ∧
        (∀ c, c ∈ st2.categories ↔ c ∈ st.categories ∧ c.id ≠ cid)) ∧
      ((st.expenses.filter (fun e => e.category_id = cid && e.user_id = uid)).length = 0 →
        delete_budget_category st uid cid false =
          .ok ({ st with categories := (st.categories.map (fun c => if c.id = cid then { c with is_active := false } else c)) },
               "Budget category deactivated successfully"))) := by
  refine ⟨fun h force => ?_, fun cat hf => ?_⟩
  · simp [delete_budget_category, h]
  · have hp := List.find?_some hf
    simp only [Bool.and_eq_true, decide_eq_true_eq] at hp
    obtain ⟨hcid, -⟩ := hp
    refine ⟨fun hpos => ?_, fun st2 m hok => ?_, fun hzero => ?_⟩
    · simp [delete_budget_category, hf, hpos]
    · simp only [delete_budget_category, hf, Bool.not_true, Bool.and_false,
        Bool.false_eq_true, if_false, if_true, Except.ok.injEq, Prod.mk.injEq] at hok
      obtain ⟨hst2, -⟩ := hok
      subst hst2
      constructor
      · intro e
        simp [List.mem_filter]
        tauto
      · intro c
        simp [List.mem_filter, hcid]
    · simp [delete_budget_category, hf, hzero, hcid]

/-- Witness for `C6_delete_category`: in the fixture store the category
`c1` has two expenses, so an unforced delete fails with the conflict
error reporting count 2. -/
theorem C6_delete_category_witness :
    delete_budget_category egStore "u1" "c1" false = .error (.hasExpenses 2) :=
  ((C6_delete_category egStore "u1" "c1").2 egCat (by decide)).1 (by decide)

/-! ## Claim C7 -/

/-- A `filterMap` whose function succeeds on every element preserves length. -/
theorem length_filterMap_of_isSome {α β : Type} (g : α → Option β) (l : List α)
    (h : ∀ x ∈ l, (g x).isSome) : (l.filterMap g).length = l.length := by
  induction l with
  | nil => rfl
  | cons a rest ih =>
    rw [List.filterMap_cons]
    cases hg : g a with
    | none =>
      have := h a (List.mem_cons_self a rest)
      rw [hg] at this
      simp at this
    | some b =>
      simp only [List.length_cons]
      rw [ih (fun x hx => h x (List.mem_cons_of_mem a hx))]

/-- C7: export.  A non-CSV format fails with the unsupported-format
error (producing no rows); the CSV export returns exactly one header row
followed by data rows that are a permutation of the user's in-range
expenses joined with their category names, sorted by expense date
descending, each data row carrying the columns (date, amount,
description, category name, created-at); when every expense's category
exists, the number of data rows equals the number of the caller's
expenses whose date lies in the resolved period. -/
theorem C7_export (st : Store) (uid : String) (format : ExportFormat)
    (period : PeriodType) (sd ed : Option PDate) (today : PDate) :
    (format ≠ ExportFormat.csv →
      export_report_data st uid format period sd ed today =
        .error "Only CSV export is currently supported") ∧
    (∀ ps pe, get_period_dates period sd ed today = some (ps, pe) →
      ∃ rows : List (ExpR × String),
        export_report_data st uid ExportFormat.csv period sd ed today =
          .ok (some (CsvRow.header :: rows.map (fun p =>
            CsvRow.data p.1.expense_date p.1.amount p.1.description p.2 p.1.created_at))) ∧
        rows.Perm (exportJoinRows st uid ps pe) ∧
        List.Sorted exportLe rows ∧
        ((∀ e ∈ st.expenses, ∃ c ∈ st.categories, c.id = e.category_id) →
          rows.length =
            (st.expenses.filter (fun e => e.user_id = uid && inRange e ps pe)).length)) := by
  refine ⟨fun h => ?_, fun ps pe hp => ?_⟩
  · simp [export_report_data, h]
  · refine ⟨sortDateDesc (exportJoinRows st uid ps pe), ?_, ?_, ?_, ?_⟩
    · simp [export_report_data, hp]
    · exact List.perm_insertionSort _ _
    · exact List.sorted_insertionSort _ _
    · intro hFK
      have hperm := List.perm_insertionSort exportLe (exportJoinRows st uid ps pe)
      unfold sortDateDesc
      rw [hperm.length_eq]
      unfold exportJoinRows
      apply length_filterMap_of_isSome
      intro e he
      have he2 : e ∈ st.expenses := (List.mem_filter.mp he).1
      obtain ⟨c, hc, hcid⟩ := hFK e he2
      cases hfound : st.categories.find? (fun d => d.id = e.category_id) with
      | none =>
        have := List.find?_eq_none.mp hfound c hc
        simp [hcid] at this
      | some d => simp

/-- Witness for `C7_export` on the fixture store over March 2024: three
in-range expenses, so three data rows after the header. -/
theorem C7_export_witness :
    ∃ rows : List (ExpR × String),
      export_report_data egStore "u1" ExportFormat.csv PeriodType.custom
          (some ⟨2024, 3, 1⟩) (some ⟨2024, 3, 31⟩) ⟨2024, 3, 15⟩ =
        .ok (some (CsvRow.header :: rows.map (fun p =>
          CsvRow.data p.1.expense_date p.1.amount p.1.description p.2 p.1.created_at))) ∧
      rows.Perm (exportJoinRows egStore "u1" ⟨2024, 3, 1⟩ ⟨2024, 3, 31⟩) ∧
      List.Sorted exportLe rows ∧ rows.length = 3 := by
  obtain ⟨rows, h1, h2, h3, h4⟩ :=
    (C7_export egStore "u1" ExportFormat.csv PeriodType.custom
        (some ⟨2024, 3, 1⟩) (some ⟨2024, 3, 31⟩) ⟨2024, 3, 15⟩).2
      ⟨2024, 3, 1⟩ ⟨2024, 3, 31⟩ (by decide)
  refine ⟨rows, h1, h2, h3, ?_⟩
  rw [h4 (by decide)]
  decide

/-! ## Claim C8 -/

/-- The overview's utilization field is the guarded quotient of its own
spent and budget totals (definitional). -/
theorem budget_summary_utilization_def (st : Store) (uid : String) :
    (get_budget_summary st uid).budget_utilization =
      (if (get_budget_summary st uid).total_budget > (0 : ℚ) then
        (get_budget_summary st uid).total_spent /
          (get_budget_summary st uid).total_budget * 100
      else 0) := rfl

/-- The financial summary's two rate fields are the guarded quotients
over the user's total active budget. -/
theorem financial_summary_rates (st : Store) (uid : String) (period : PeriodType)
    (sd ed : Option PDate) (today : PDate) (fs : FinancialSummaryData)
    (h : get_financial_summary st uid period sd ed today = some fs) :
    fs.budget_utilization =
      (if totalActiveBudget st uid > (0 : ℚ) then
        fs.total_spent / totalActiveBudget st uid * 100 else 0) ∧
    fs.savings_rate =
      (if totalActiveBudget st uid > (0 : ℚ) then
        (totalActiveBudget st uid - fs.total_spent) / totalActiveBudget st uid * 100
      else 0) := by
  unfold get_financial_summary at h
  cases hq : get_period_dates period sd ed today with
  | none => rw [hq] at h; exact absurd h (by simp)
  | some pse =>
    rw [hq, Option.map_some'] at h
    injection h with h
    subst h
    exact ⟨rfl, rfl⟩

/-- C8: utilization (and the summary's savings rate) is spent ÷ budget
× 100 whenever the relevant budget is strictly positive and 0 whenever
that budget is 0, in the financial summary, the budget overview, the
category breakdown and the insights (where a danger/warning alert can
only arise from an active owned category with strictly positive budget);
every division is guarded, so no division by zero is reachable. -/
theorem C8_zero_safe_utilization (st : Store) (uid : String) (period : PeriodType)
    (sd ed : Option PDate) (today : PDate) :
    (∀ fs, get_financial_summary st uid period sd ed today = some fs →
      (totalActiveBudget st uid = 0 → fs.budget_utilization = 0 ∧ fs.savings_rate = 0) ∧
      (0 < totalActiveBudget st uid →
        fs.budget_utilization = fs.total_spent / totalActiveBudget st uid * 100 ∧
        fs.savings_rate =
          (totalActiveBudget st uid - fs.total_spent) / totalActiveBudget st uid * 100)) ∧
    ((get_budget_summary st uid).total_budget = 0 →
      (get_budget_summary st uid).budget_utilization = 0) ∧
    (0 < (get_budget_summary st uid).total_budget →
      (get_budget_summary st uid).budget_utilization =
        (get_budget_summary st uid).total_spent /
          (get_budget_summary st uid).total_budget * 100) ∧
    (∀ row ∈ (get_budget_summary st uid).categories,
      (row.budget_amount = 0 → row.utilization_percentage = 0) ∧
      (0 < row.budget_amount →
        row.utilization_percentage = row.spent_amount / row.budget_amount * 100)) ∧
    (∀ rows, get_category_breakdown st uid period sd ed today = some rows →
      ∀ row ∈ rows,
        (row.budget = 0 → row.utilization = 0) ∧
        (0 < row.budget → row.utilization = row.spent / row.budget * 100)) ∧
    (∀ i ∈ get_financial_insights st uid today,
      i.type = AlertType.danger ∨ i.type = AlertType.warning →
      ∃ c ∈ st.categories, c.user_id = uid ∧ c.is_active = true ∧
        i.category = some c.name ∧ 0 < c.budget_amount) := by
  refine ⟨?_, ?_, ?_, ?_, ?_, ?_⟩
  · intro fs hfs
    obtain ⟨hu, hs⟩ := financial_summary_rates st uid period sd ed today fs hfs
    constructor
    · intro h0
      rw [hu, hs, h0]
      norm_num
    · intro hpos
      rw [hu, hs, if_pos hpos, if_pos hpos]
      exact ⟨rfl, rfl⟩
  · intro h0
    rw [budget_summary_utilization_def, h0]
    norm_num
  · intro hpos
    rw [budget_summary_utilization_def, if_pos hpos]
  · intro row hrow
    simp only [get_budget_summary, List.mem_map] at hrow
    obtain ⟨p, hp, hrow⟩ := hrow
    subst hrow
    constructor
    · intro h0
      have h0q : p.1.budget_amount = 0 := h0
      show (if p.1.budget_amount > (0 : ℚ) then p.2 / p.1.budget_amount * 100 else 0) = 0
      rw [h0q]
      norm_num
    · intro hpos
      have hq : (0 : ℚ) < p.1.budget_amount := hpos
      show (if p.1.budget_amount > (0 : ℚ) then p.2 / p.1.budget_amount * 100 else 0) =
        p.2 / p.1.budget_amount * 100
      rw [if_pos hq]
  · intro rows hrows row hrow
    unfold get_category_breakdown at hrows
    cases hq : get_period_dates period sd ed today with
    | none => rw [hq] at hrows; exact absurd hrows (by simp)
    | some pse =>
      rw [hq, Option.map_some'] at hrows
      injection hrows with hrows
      subst hrows
      simp only [List.mem_map] at hrow
      obtain ⟨p, hp, hrow⟩ := hrow
      subst hrow
      constructor
      · intro h0
        have h0q : p.1.budget_amount = 0 := h0
        show (if p.1.budget_amount > (0 : ℚ) then p.2 / p.1.budget_amount * 100 else 0) = 0
        rw [h0q]
        norm_num
      · intro hpos
        have hposq : (0 : ℚ) < p.1.budget_amount := hpos
        show (if p.1.budget_amount > (0 : ℚ) then p.2 / p.1.budget_amount * 100 else 0) =
          p.2 / p.1.budget_amount * 100
        rw [if_pos hposq]
  · intro i hi htype
    unfold get_financial_insights at hi
    rw [List.mem_append] at hi
    cases hi with
    | inr hinf =>
      by_cases hc : (List.filter (fun p => p.2 = 0)
          ((st.categories.filter (fun c => c.user_id = uid && c.is_active)).map
            (fun c => (c, rangeCatSpent st c.id ⟨today.year, today.month, 1⟩ today)))) ≠ [] ∧
          (List.filter (fun p => p.2 = 0)
            ((st.categories.filter (fun c => c.user_id = uid && c.is_active)).map
              (fun c => (c, rangeCatSpent st c.id ⟨today.year, today.month, 1⟩ today)))).length ≤ 3
      · rw [if_pos hc] at hinf
        simp only [List.mem_map] at hinf
        obtain ⟨p, hp, hi⟩ := hinf
        subst hi
        simp at htype
      · rw [if_neg hc] at hinf
        simp at hinf
    | inl halert =>
      simp only [List.mem_filterMap, List.mem_map] at halert
      obtain ⟨p, ⟨c, hc, hpc⟩, hfp⟩ := halert
      subst hpc
      rw [List.mem_filter] at hc
      obtain ⟨hcmem, hcf⟩ := hc
      simp only [Bool.and_eq_true, decide_eq_true_eq] at hcf
      by_cases h90 : (if c.budget_amount > (0 : ℚ) then
          rangeCatSpent st c.id ⟨today.year, today.month, 1⟩ today / c.budget_amount * 100
        else 0) ≥ 90
      · rw [if_pos h90] at hfp
        cases hfp
        refine ⟨c, hcmem, hcf.1, hcf.2, rfl, ?_⟩
        by_contra hb
        rw [if_neg hb] at h90
        norm_num at h90
      · rw [if_neg h90] at hfp
        by_cases h75 : (if c.budget_amount > (0 : ℚ) then
            rangeCatSpent st c.id ⟨today.year, today.month, 1⟩ today / c.budget_amount * 100
          else 0) ≥ 75
        · rw [if_pos h75] at hfp
          cases hfp
          refine ⟨c, hcmem, hcf.1, hcf.2, rfl, ?_⟩
          by_contra hb
          rw [if_neg hb] at h75
          norm_num at h75
        · rw [if_neg h75] at hfp
          cases hfp

/-- Witness for `C8_zero_safe_utilization`: the fixture store has a
positive total budget, so the overview's utilization is the quotient
form. -/
theorem C8_zero_safe_utilization_witness :
    (get_budget_summary egStore "u1").budget_utilization =
      (get_budget_summary egStore "u1").total_spent /
        (get_budget_summary egStore "u1").total_budget * 100 :=
  (C8_zero_safe_utilization egStore "u1" PeriodType.month none none
    ⟨2024, 3, 15⟩).2.2.1 (by
      have h : (get_budget_summary egStore "u1").total_budget = 100 + 0 := rfl
      rw [h]
      norm_num)

/-! ## Claim C10 -/

theorem sumAmounts_cons (a : ExpR) (l : List ExpR) :
    sumAmounts (a :: l) = a.amount + sumAmounts l := by
  simp [sumAmounts]

theorem sumAmounts_nonneg (l : List ExpR) (h : ∀ x ∈ l, (0 : ℚ) ≤ x.amount) :
    0 ≤ sumAmounts l := by
  induction l with
  | nil => exact le_refl 0
  | cons a rest ih =>
    rw [sumAmounts_cons]
    exact add_nonneg (h a (List.mem_cons_self a rest))
      (ih fun x hx => h x (List.mem_cons_of_mem a hx))

/-- Summing amounts over a filter is monotone in the predicate when all
amounts are nonnegative. -/
theorem sumAmounts_filter_mono (l : List ExpR) (p q : ExpR → Bool)
    (hpq : ∀ x ∈ l, p x = true → q x = true)
    (hnn : ∀ x ∈ l, (0 : ℚ) ≤ x.amount) :
    sumAmounts (l.filter p) ≤ sumAmounts (l.filter q) := by
  induction l with
  | nil => exact le_refl 0
  | cons a rest ih =>
    have ih2 := ih (fun x hx => hpq x (List.mem_cons_of_mem a hx))
      (fun x hx => hnn x (List.mem_cons_of_mem a hx))
    by_cases hpa : p a = true
    · have hqa := hpq a (List.mem_cons_self a rest) hpa
      simp only [List.filter_cons, hpa, hqa, if_true, sumAmounts_cons]
      exact add_le_add_left ih2 _
    · by_cases hqa : q a = true
      · simp only [List.filter_cons, hpa, hqa, if_true, if_false, sumAmounts_cons]
        exact le_trans ih2 (le_add_of_nonneg_left (hnn a (List.mem_cons_self a rest)))
      · simp only [List.filter_cons, hpa, hqa, if_false]
        exact ih2

/-- Strict version: a positive-amount element satisfying `q` but not `p`
makes the `p`-filtered sum strictly smaller. -/
theorem sumAmounts_filter_lt (l : List ExpR) (p q : ExpR → Bool)
    (hpq : ∀ x ∈ l, p x = true → q x = true)
    (hnn : ∀ x ∈ l, (0 : ℚ) ≤ x.amount)
    (e : ExpR) (he : e ∈ l) (hqe : q e = true) (hpe : p e = false)
    (hpos : (0 : ℚ) < e.amount) :
    sumAmounts (l.filter p) < sumAmounts (l.filter q) := by
  induction l with
  | nil => cases he
  | cons a rest ih =>
    have hmono := sumAmounts_filter_mono rest p q
      (fun x hx => hpq x (List.mem_cons_of_mem a hx))
      (fun x hx => hnn x (List.mem_cons_of_mem a hx))
    rcases List.mem_cons.mp he with rfl | he2
    · have hpa : p e = false := hpe
      simp only [List.filter_cons, hpa, hqe, if_true, if_false, Bool.false_eq_true,
        sumAmounts_cons]
      exact lt_of_le_of_lt hmono (lt_add_of_pos_left _ hpos)
    · have ih2 := ih (fun x hx => hpq x (List.mem_cons_of_mem a hx))
        (fun x hx => hnn x (List.mem_cons_of_mem a hx)) he2
      by_cases hpa : p a = true
      · have hqa := hpq a (List.mem_cons_self a rest) hpa
        simp only [List.filter_cons, hpa, hqa, if_true, sumAmounts_cons]
        exact add_lt_add_left ih2 _
      · by_cases hqa : q a = true
        · simp only [List.filter_cons, hpa, hqa, if_true, if_false, Bool.false_eq_true,
            sumAmounts_cons]
          exact lt_of_lt_of_le ih2 (le_add_of_nonneg_left (hnn a (List.mem_cons_self a rest)))
        · simp only [List.filter_cons, hpa, hqa, if_false, Bool.false_eq_true]
          exact ih2

/-- A member satisfying the filter contributes at most the filtered sum. -/
theorem le_sumAmounts_filter (l : List ExpR) (q : ExpR → Bool) (e : ExpR)
    (he : e ∈ l) (hqe : q e = true) (hnn : ∀ x ∈ l, (0 : ℚ) ≤ x.amount) :
    e.amount ≤ sumAmounts (l.filter q) := by
  induction l with
  | nil => cases he
  | cons a rest ih
  => rcases List.mem_cons.mp he with rfl | he2
     · simp only [List.filter_cons, hqe, if_true, sumAmounts_cons]
       refine le_add_of_nonneg_right (sumAmounts_nonneg _ ?_)
       intro x hx
       exact hnn x (List.mem_cons_of_mem e (List.mem_filter.mp hx).1)
     · have ih2 := ih he2 (fun x hx => hnn x (List.mem_cons_of_mem a hx))
       by_cases hqa : q a = true
       · simp only [List.filter_cons, hqa, if_true, sumAmounts_cons]
         exact le_trans ih2 (le_add_of_nonneg_left (hnn a (List.mem_cons_self a rest)))
       · simp only [List.filter_cons, hqa, if_false, Bool.false_eq_true]
         exact ih2

/-- Filtered sums over pointwise-disjoint predicates add. -/
theorem sumAmounts_filter_or (l : List ExpR) (p q : ExpR → Bool)
    (hd : ∀ x ∈ l, ¬(p x = true ∧ q x = true)) :
    sumAmounts (l.filter (fun x => p x || q x)) =
      sumAmounts (l.filter p) + sumAmounts (l.filter q) := by
  induction l with
  | nil => simp [sumAmounts]
  | cons a rest ih =>
    have ih2 := ih (fun x hx => hd x (List.mem_cons_of_mem a hx))
    by_cases hpa : p a = true
    · have hqa : q a = false := by
        rcases Bool.eq_false_or_eq_true (q a) with h | h
        · exact absurd ⟨hpa, h⟩ (hd a (List.mem_cons_self a rest))
        · exact h
      simp only [List.filter_cons, hpa, hqa, Bool.true_or, if_true, if_false,
        Bool.false_eq_true, sumAmounts_cons]
      rw [ih2]
      ring
    · by_cases hqa : q a = true
      · simp only [List.filter_cons, hpa, hqa, Bool.false_or, if_true, if_false,
          Bool.false_eq_true, sumAmounts_cons]
        rw [ih2]
        ring
      · simp only [List.filter_cons, hpa, hqa, Bool.false_or, if_false,
          Bool.false_eq_true]
        exact ih2

/-- The breakdown's per-category sums add up to the amount-sum of the
in-range expenses whose category id occurs among the given categories
(which must have pairwise-distinct ids). -/
theorem sum_rangeCatSpent (st : Store) (ps pe : PDate) (cats : List CatR)
    (hnd : (cats.map (fun c => c.id)).Nodup) :
    (cats.map (fun c => rangeCatSpent st c.id ps pe)).sum =
      sumAmounts (st.expenses.filter
        (fun e => decide (e.category_id ∈ cats.map (fun c => c.id)) && inRange e ps pe)) := by
  induction cats with
  | nil =>
    have h0 : (st.expenses.filter
        (fun e => decide (e.category_id ∈ ([] : List CatR).map (fun c => c.id)) &&
          inRange e ps pe)) = [] := by
      apply List.filter_eq_nil_iff.mpr
      intro x _
      simp
    rw [h0]
    simp [sumAmounts]
  | cons c rest ih =>
    rw [List.map_cons] at hnd
    rw [List.nodup_cons] at hnd
    rw [List.map_cons, List.sum_cons]
    rw [ih hnd.2]
    have hsplit : (st.expenses.filter
        (fun e => decide (e.category_id ∈ (c :: rest).map (fun c => c.id)) &&
          inRange e ps pe)) =
        (st.expenses.filter (fun e =>
          (decide (e.category_id = c.id) && inRange e ps pe) ||
          (decide (e.category_id ∈ rest.map (fun c => c.id)) && inRange e ps pe))) := by
      apply List.filter_congr
      intro x _
      by_cases h1 : x.category_id = c.id <;>
        by_cases h2 : x.category_id ∈ rest.map (fun c => c.id) <;>
          simp [h1, h2, List.mem_cons]
    rw [hsplit]
    rw [sumAmounts_filter_or]
    · rfl
    · intro x _ hx
      obtain ⟨h1, h2⟩ := hx
      simp only [Bool.and_eq_true, decide_eq_true_eq] at h1 h2
      exact hnd.1 (h1.1 ▸ h2.1)

/-- C10: an expense on a soft-deleted category is counted by the
financial summary's `total_spent` (its query filters only by user and
date) but contributes to no category-breakdown row (rows exist only for
active categories), so the breakdown's spent column sums to strictly
less than the summary's total for the same user and period. -/
theorem C10_inactive_category_spending (st : Store) (uid : String)
    (ps pe today : PDate) (c : CatR) (e : ExpR)
    (hc : c ∈ st.categories) (hcI : c.is_active = false)
    (he : e ∈ st.expenses) (heu : e.user_id = uid) (hec : e.category_id = c.id)
    (her : inRange e ps pe = true) (hpos : (0 : ℚ) < e.amount)
    (hnn : ∀ x ∈ st.expenses, (0 : ℚ) ≤ x.amount)
    (hnd : (st.categories.map (fun x => x.id)).Nodup)
    (hown : ∀ x ∈ st.expenses, ∀ d ∈ st.categories,
      x.category_id = d.id → x.user_id = d.user_id) :
    e.amount ≤ summaryTotalSpent st uid ps pe ∧
    (∀ rows, get_category_breakdown st uid PeriodType.custom (some ps) (some pe) today =
        some rows →
      (∀ row ∈ rows, ∃ d ∈ st.categories, d.is_active = true ∧ d.user_id = uid ∧
        row.category_name = d.name ∧ row.budget = d.budget_amount) ∧
      (rows.map (fun r => r.spent)).sum < summaryTotalSpent st uid ps pe) := by
  have hq : get_period_dates PeriodType.custom (some ps) (some pe) today =
      some (ps, pe) := rfl
  constructor
  · exact le_sumAmounts_filter st.expenses _ e he (by simp [heu, her]) hnn
  · intro rows hrows
    unfold get_category_breakdown at hrows
    rw [hq, Option.map_some'] at hrows
    injection hrows with hrows
    subst hrows
    constructor
    · intro row hrow
      simp only [List.mem_map] at hrow
      obtain ⟨p, hp, hrow⟩ := hrow
      obtain ⟨d, hd, hpd⟩ := hp
      subst hrow
      subst hpd
      rw [List.mem_filter] at hd
      obtain ⟨hdmem, hdf⟩ := hd
      simp only [Bool.and_eq_true, decide_eq_true_eq] at hdf
      exact ⟨d, hdmem, hdf.2, hdf.1, rfl, rfl⟩
    · rw [List.map_map, List.map_map]
      show (List.map (fun c : CatR => rangeCatSpent st c.id ps pe)
          (st.categories.filter (fun c => c.user_id = uid && c.is_active))).sum <
        summaryTotalSpent st uid ps pe
      have hndF : ((st.categories.filter (fun c => c.user_id = uid && c.is_active)).map
          (fun c => c.id)).Nodup :=
        List.Nodup.sublist (List.Sublist.map _ (List.filter_sublist _)) hnd
      rw [sum_rangeCatSpent st ps pe _ hndF]
      apply sumAmounts_filter_lt _ _ _ ?_ hnn e he (by simp [heu, her]) ?_ hpos
      · intro x hx hpx
        simp only [Bool.and_eq_true, decide_eq_true_eq] at hpx
        obtain ⟨hmem, hr⟩ := hpx
        rw [List.mem_map] at hmem
        obtain ⟨d, hdF, hdid⟩ := hmem
        rw [List.mem_filter] at hdF
        obtain ⟨hdmem, hdf⟩ := hdF
        simp only [Bool.and_eq_true, decide_eq_true_eq] at hdf
        have hux : x.user_id = uid := by
          rw [hown x hx d hdmem hdid.symm]
          exact hdf.1
        simp [hux, hr]
      · have hnotin : e.category_id ∉
            ((st.categories.filter (fun c => c.user_id = uid && c.is_active)).map
              (fun c => c.id)) := by
          intro hmem
          rw [List.mem_map] at hmem
          obtain ⟨d, hdF, hdid⟩ := hmem
          rw [List.mem_filter] at hdF
          obtain ⟨hdmem, hdf⟩ := hdF
          simp only [Bool.and_eq_true, decide_eq_true_eq] at hdf
          have hdc : d = c :=
            List.inj_on_of_nodup_map hnd hdmem hc (hdid.trans hec)
          rw [hdc, hcI] at hdf
          exact Bool.false_ne_true hdf.2
        simp [hnotin]

/-- Witness for `C10_inactive_category_spending` on the fixture store:
the ghost expense of 7 on the inactive category is inside the summary
total but outside every breakdown row. -/
theorem C10_inactive_category_spending_witness :
    (7 : ℚ) ≤ summaryTotalSpent egStore "u1" ⟨2024, 3, 1⟩ ⟨2024, 3, 31⟩ ∧
    ∀ rows, get_category_breakdown egStore "u1" PeriodType.custom (some ⟨2024, 3, 1⟩)
        (some ⟨2024, 3, 31⟩) ⟨2024, 3, 15⟩ = some rows →
      (rows.map (fun r => r.spent)).sum <
        summaryTotalSpent egStore "u1" ⟨2024, 3, 1⟩ ⟨2024, 3, 31⟩ := by
  have h := C10_inactive_category_spending egStore "u1" ⟨2024, 3, 1⟩ ⟨2024, 3, 31⟩
    ⟨2024, 3, 15⟩ egCatInactive egExp3 (by decide) (by decide) (by decide) (by decide)
    (by decide) (by decide) (by norm_num [egExp3])
    (by
      intro x hx
      simp only [egStore, List.mem_cons, List.not_mem_nil, or_false] at hx
      rcases hx with rfl | rfl | rfl <;> norm_num [egExp1, egExp2, egExp3])
    (by decide) (by decide)
  exact ⟨h.1, fun rows hr => (h.2 rows hr).2⟩

end BudgetTracker
